import Mathlib

/-!
Shallow embedding of the Embench build orchestrator (`build_all.py`) and of
the simulator run driver (`pylib/run_sim.py`), together with theorems that
check the natural-language specification against the embedded code.

Conventions of the embedding:
* Python dictionaries holding configuration values become insertion-ordered
  association lists of `String × CVal`.
* The filesystem visible to the scripts is a record of query functions; the
  behaviour of external processes (`subprocess.run`) and of `os.makedirs` is
  an oracle parameter, so theorems quantify over every possible external
  behaviour.
* Python functions that can raise an uncaught exception return a `PyResult`.
* Python `float(...)` is modelled exactly over `ℚ` (the decimal value denoted
  by the literal), plus infinity and NaN constructors.
-/

/-- Python `os.path.join` restricted to the way the scripts use it: join two
path components with a separator. -/
def joinPath (a b : String) : String := a ++ "/" ++ b

def splitSpaceAux : List Char → List Char → List String
  | [], cur => [⟨cur.reverse⟩]
  | c :: rest, cur =>
    if c = ' ' then ⟨cur.reverse⟩ :: splitSpaceAux rest []
    else splitSpaceAux rest (c :: cur)

/-- Python `str.split(sep=' ')`: split on every single space, keeping empty
pieces, and returning one empty piece for the empty string. -/
def pySplitSpace (s : String) : List String := splitSpaceAux s.data []

def fmtAux (argl : List Char) : List Char → List Char
  | '\x7b' :: '0' :: '\x7d' :: rest => argl ++ fmtAux argl rest
  | c :: rest => c :: fmtAux argl rest
  | [] => []

/-- Python `str.format` for the patterns used by the scripts, which contain a
single positional placeholder numbered 0: every occurrence of the
three-character placeholder is replaced by the argument. -/
def pyFormat1 (pat arg : String) : String := ⟨fmtAux arg.data pat.data⟩

/-- Python `str.endswith`. -/
def pyEndsWith (s suffix : String) : Bool :=
  decide (suffix.data.length ≤ s.data.length)
    && s.data.drop (s.data.length - suffix.data.length) == suffix.data

/-- Python `os.path.splitext` for plain filenames (no directory separators):
split at the last dot, unless every character before it is itself a dot. -/
def pySplitExt (s : String) : String × String :=
  let l := s.data
  let dotIdxs := (List.range l.length).filter (fun i => l.getD i ' ' = '.')
  match dotIdxs.getLast? with
  | none => (s, "")
  | some i =>
    if (l.take i).any (fun c => c ≠ '.') then (⟨l.take i⟩, ⟨l.drop i⟩)
    else (s, "")

/-! ### Model of Python `float(str)` (used by `decode_results`) -/

/-- Result of a successful Python `float(...)` call: a finite value (modelled
exactly by the rational number the accepted literal denotes), a signed
infinity, or a NaN. -/
inductive PyFloat
  | finite (q : ℚ)
  | inf (neg : Bool)
  | nan
deriving DecidableEq

/-- ASCII whitespace stripped by Python `float`. -/
def isPySpace (c : Char) : Bool :=
  c = ' ' || c = '\t' || c = '\n' || c = '\r' || c = '\x0b' || c = '\x0c'

def digitVal (c : Char) : ℕ := c.toNat - 48

/-- Parse a maximal run of digits, allowing single underscores between
digits, returning the accumulated value, the number of digits consumed and
the remaining input.  Fuel-indexed to keep the recursion structural; callers
pass the input length as fuel, which always suffices. -/
def parseDigitsAux : ℕ → ℕ → ℕ → List Char → ℕ × ℕ × List Char
  | 0, acc, cnt, l => (acc, cnt, l)
  | fuel + 1, acc, cnt, l =>
    match l with
    | [] => (acc, cnt, [])
    | c :: rest =>
      if c.isDigit then parseDigitsAux fuel (acc * 10 + digitVal c) (cnt + 1) rest
      else if c = '_' then
        match rest with
        | d :: rest2 =>
          if d.isDigit && cnt != 0 then
            parseDigitsAux fuel (acc * 10 + digitVal d) (cnt + 1) rest2
          else (acc, cnt, c :: rest)
        | [] => (acc, cnt, c :: rest)
      else (acc, cnt, c :: rest)

def parseDigits (l : List Char) : ℕ × ℕ × List Char :=
  parseDigitsAux l.length 0 0 l

/-- Optional sign; returns whether the value is negated and the rest. -/
def parseSign : List Char → Bool × List Char
  | '+' :: rest => (false, rest)
  | '-' :: rest => (true, rest)
  | l => (false, l)

/-- Case-insensitive keyword match; the keyword is given in lower case. -/
def matchCI : List Char → List Char → Option (List Char)
  | [], l => some l
  | _ :: _, [] => none
  | k :: ks, c :: cs => if c.toLower = k then matchCI ks cs else none

/-- Ten to an integer power, as a rational. -/
def tenPowZ : Int → ℚ
  | Int.ofNat n => (10 : ℚ) ^ n
  | Int.negSucc n => 1 / (10 : ℚ) ^ (n + 1)

def signApply (neg : Bool) (q : ℚ) : ℚ := if neg then -q else q

/-- The keyword forms accepted by Python `float`: inf, infinity and nan, case
insensitively, optionally followed by whitespace. -/
def parseKeyword (neg : Bool) (l : List Char) : Option PyFloat :=
  match matchCI "infinity".data l with
  | some r => if r.dropWhile isPySpace = [] then some (PyFloat.inf neg) else none
  | none =>
    match matchCI "inf".data l with
    | some r => if r.dropWhile isPySpace = [] then some (PyFloat.inf neg) else none
    | none =>
      match matchCI "nan".data l with
      | some r => if r.dropWhile isPySpace = [] then some PyFloat.nan else none
      | none => none

/-- The numeric forms accepted by Python `float`: integer part, optional
fractional part (at least one digit between them), optional exponent,
optional trailing whitespace. -/
def parseFiniteNum (neg : Bool) (l : List Char) : Option PyFloat :=
  let ipRes := parseDigits l
  let afterDot :=
    match ipRes.2.2 with
    | '.' :: rest =>
      let f := parseDigits rest
      (ipRes.1 * 10 ^ f.2.1 + f.1, f.2.1, f.2.2)
    | _ => (ipRes.1, 0, ipRes.2.2)
  let mant := afterDot.1
  let fracCnt := afterDot.2.1
  if ipRes.2.1 + fracCnt = 0 then none
  else
    match afterDot.2.2 with
    | [] => some (PyFloat.finite (signApply neg ((mant : ℚ) * tenPowZ (-(fracCnt : Int)))))
    | c :: rest =>
      if c.toLower = 'e' then
        let sg := parseSign rest
        let ex := parseDigits sg.2
        if ex.2.1 = 0 then none
        else if ex.2.2.dropWhile isPySpace ≠ [] then none
        else
          let ev : Int := if sg.1 then -(ex.1 : Int) else (ex.1 : Int)
          some (PyFloat.finite (signApply neg ((mant : ℚ) * tenPowZ (ev - (fracCnt : Int)))))
      else if (c :: rest).dropWhile isPySpace = [] then
        some (PyFloat.finite (signApply neg ((mant : ℚ) * tenPowZ (-(fracCnt : Int)))))
      else none

/-- Model of Python `float(s)`: `some` of the parsed value, `none` when the
call raises `ValueError`. -/
def pyFloatValue (s : String) : Option PyFloat :=
  let l := s.data.dropWhile isPySpace
  let sg := parseSign l
  match parseKeyword sg.1 sg.2 with
  | some v => some v
  | none => parseFiniteNum sg.1 sg.2

/-- Embedding of `decode_results` from `pylib/run_sim.py`: parse the whole
captured stdout text as one float; on `ValueError` return 0.0.  The stderr
argument is never consulted. -/
def decode_results (stdout_str stderr_str : String) : PyFloat :=
  match pyFloatValue stdout_str with
  | some v => v
  | none => PyFloat.finite 0

/-! ### Configuration model (`populate_defaults`, `populate_user`, merge) -/

/-- Configuration values stored in the parameter dictionaries: strings,
integers, or lists of strings.  The empty Python dicts that
`populate_defaults` assigns to the list-valued keys behave as empty
iterables under both `extend` and assignment, so they are modelled as empty
lists. -/
inductive CVal
  | s (v : String)
  | n (v : Int)
  | l (v : List String)
deriving DecidableEq

/-- A Python dict of configuration values, as an insertion-ordered
association list. -/
abbrev Fragment := List (String × CVal)

def findVal : Fragment → String → Option CVal
  | [], _ => none
  | kv :: rest, k => if kv.1 = k then some kv.2 else findVal rest k

/-- Python dict assignment: replace in place, or append a new entry. -/
def setKey : Fragment → String → CVal → Fragment
  | [], k, v => [(k, v)]
  | kv :: rest, k, v => if kv.1 = k then (kv.1, v) :: rest else kv :: setKey rest k v

def extendCVal : CVal → List String → CVal
  | CVal.l ys, xs => CVal.l (ys ++ xs)
  | v, _ => v

/-- The items a configuration value contributes when a list is extended with
it (a string iterates over its characters, numbers are not iterable and the
script never extends with one). -/
def cvalItems : CVal → List String
  | CVal.l ys => ys
  | CVal.s str => str.data.map (fun c => String.mk [c])
  | CVal.n _ => []

/-- Python `d[k].extend(xs)` on the stored list. -/
def extendKey : Fragment → String → List String → Fragment
  | [], _, _ => []
  | kv :: rest, k, xs =>
    if kv.1 = k then (kv.1, extendCVal kv.2 xs) :: rest else kv :: extendKey rest k xs

/-- One iteration of the merge loop in `set_parameters`: `cflags` and
`ldflags` entries extend the stored list, every other key is overwritten. -/
def applyEntry (st : Fragment) (kv : String × CVal) : Fragment :=
  if kv.1 = "cflags" ∨ kv.1 = "ldflags" then extendKey st kv.1 (cvalItems kv.2)
  else setKey st kv.1 kv.2

/-- Apply every entry of one configuration source, in dict order. -/
def applyFragment : Fragment → Fragment → Fragment
  | st, [] => st
  | st, kv :: rest => applyFragment (applyEntry st kv) rest

/-- Embedding of `populate_defaults`.  Note that `ld` is deliberately not
set, to let it default to `cc` later. -/
def populate_defaults : Fragment :=
  [("cc", CVal.s "cc"),
   ("cflags", CVal.l []),
   ("ldflags", CVal.l []),
   ("cc_define1_pattern", CVal.s "-D\x7b0\x7d"),
   ("cc_define2_pattern", CVal.s "-D\x7b0\x7d=\x7b1\x7d"),
   ("cc_incdir_pattern", CVal.s "-I\x7b0\x7d"),
   ("cc_input_pattern", CVal.s "\x7b0\x7d"),
   ("cc_output_pattern", CVal.s "-o \x7b0\x7d"),
   ("ld_input_pattern", CVal.s "\x7b0\x7d"),
   ("ld_output_pattern", CVal.s "-o \x7b0\x7d"),
   ("user_libs", CVal.l []),
   ("dummy_libs", CVal.l []),
   ("cpu_mhz", CVal.n 1),
   ("warmup_heat", CVal.n 1)]

/-- The command-line values `build_all.py` consults when building the user
configuration source; `none` models an option that was not supplied. -/
structure CmdArgs where
  cc : Option String
  ld : Option String
  cflags : Option String
  ldflags : Option String
  cc_define1_pattern : Option String
  cc_define2_pattern : Option String
  cc_incdir_pattern : Option String
  cc_input_pattern : Option String
  cc_output_pattern : Option String
  ld_input_pattern : Option String
  ld_output_pattern : Option String
  user_libs : Option String
  dummy_libs : Option String
  cpu_mhz : Option Int
  warmup_heat : Option Int

/-- Python truthiness test `if args.x:` followed by `conf['k'] = args.x`. -/
def setIfStr (conf : Fragment) (k : String) (o : Option String) : Fragment :=
  match o with
  | some s => if s != "" then setKey conf k (CVal.s s) else conf
  | none => conf

/-- Python truthiness test followed by `conf['k'] = args.x.split(sep=' ')`. -/
def setIfList (conf : Fragment) (k : String) (o : Option String) : Fragment :=
  match o with
  | some s => if s != "" then setKey conf k (CVal.l (pySplitSpace s)) else conf
  | none => conf

/-- Python truthiness test (0 is falsy) followed by `conf['k'] = args.x`. -/
def setIfInt (conf : Fragment) (k : String) (o : Option Int) : Fragment :=
  match o with
  | some v => if v != 0 then setKey conf k (CVal.n v) else conf
  | none => conf

/-- Embedding of `populate_user_commands`: updates and returns the dictionary
it was given. -/
def populate_user_commands (conf : Fragment) (args : CmdArgs) : Fragment :=
  setIfStr (setIfStr conf "cc" args.cc) "ld" args.ld

/-- Embedding of `populate_user_flags`: rebinds its dictionary parameter to a
fresh empty dict before filling it, so the caller's dictionary is left
untouched and only the returned fresh dict carries the values. -/
def populate_user_flags (_conf : Fragment) (args : CmdArgs) : Fragment :=
  setIfList (setIfList [] "cflags" args.cflags) "ldflags" args.ldflags

/-- Embedding of `populate_user_patterns`: same fresh-dict shape as
`populate_user_flags`. -/
def populate_user_patterns (_conf : Fragment) (args : CmdArgs) : Fragment :=
  setIfStr (setIfStr (setIfStr (setIfStr (setIfStr (setIfStr (setIfStr []
    "cc_define1_pattern" args.cc_define1_pattern)
    "cc_define2_pattern" args.cc_define2_pattern)
    "cc_incdir_pattern" args.cc_incdir_pattern)
    "cc_input_pattern" args.cc_input_pattern)
    "cc_output_pattern" args.cc_output_pattern)
    "ld_input_pattern" args.ld_input_pattern)
    "ld_output_pattern" args.ld_output_pattern

/-- Embedding of `populate_user_libs`: same fresh-dict shape. -/
def populate_user_libs (_conf : Fragment) (args : CmdArgs) : Fragment :=
  setIfList (setIfList [] "user_libs" args.user_libs) "dummy_libs" args.dummy_libs

/-- Embedding of `populate_user_defs`: same fresh-dict shape. -/
def populate_user_defs (_conf : Fragment) (args : CmdArgs) : Fragment :=
  setIfInt (setIfInt [] "cpu_mhz" args.cpu_mhz) "warmup_heat" args.warmup_heat

/-- Embedding of `populate_user`.  Only `populate_user_commands` updates the
dictionary that is finally returned; the fresh dictionaries built and
returned by the other four helpers are discarded, exactly as in the source,
which ignores their return values. -/
def populate_user (args : CmdArgs) : Fragment :=
  let conf : Fragment := []
  let conf := populate_user_commands conf args
  let _ := populate_user_flags conf args
  let _ := populate_user_patterns conf args
  let _ := populate_user_libs conf args
  let _ := populate_user_defs conf args
  conf

/-- Embedding of the configuration-merge portion of `set_parameters`:
initialise `cflags`/`ldflags`, apply the default, arch, chip, board and user
sources in order, then default `ld` to `cc` when `ld` was never set. -/
def resolveConfig (arch chip board : Fragment) (args : CmdArgs) : Fragment :=
  let st0 : Fragment := [("cflags", CVal.l []), ("ldflags", CVal.l [])]
  let st1 := applyFragment st0 populate_defaults
  let st2 := applyFragment st1 arch
  let st3 := applyFragment st2 chip
  let st4 := applyFragment st3 board
  let st5 := applyFragment st4 (populate_user args)
  match findVal st5 "ld" with
  | some _ => st5
  | none =>
    match findVal st5 "cc" with
    | some v => setKey st5 "ld" v
    | none => st5

/-! ### Filesystem, process oracle, and the compile/link pipeline -/

/-- Abstract filesystem state, as the queries the script performs. -/
structure FS where
  isfile : String → Bool
  isdir : String → Bool
  listdir : String → List String
  mtime : String → Int
  readOK : String → Bool

/-- Outcome of one `subprocess.run` call: completion with a return code, or
`TimeoutExpired`. -/
inductive RunOutcome
  | completed (rc : Int)
  | timedOut
deriving DecidableEq

/-- Effect of one `subprocess.run` call: its outcome and the filesystem state
afterwards. -/
structure ToolRun where
  outcome : RunOutcome
  fsAfter : FS

/-- External environment: the behaviour of `subprocess.run` (as a function of
the filesystem, the argv vector, the working directory and the timeout, fixed
at 5 by the script) and of `os.makedirs` (`none` models `PermissionError`). -/
structure BuildEnv where
  run : FS → List String → String → Nat → ToolRun
  mkdir : FS → String → Option FS

/-- Outcome of a Python call: a value, or an uncaught exception. -/
inductive PyResult (α : Type)
  | ok (a : α)
  | exn (name : String)
deriving DecidableEq

/-- The resolved global parameters consulted by the compile and link stages;
field names follow the `gp` dictionary keys. -/
structure GP where
  cc : String
  ld : String
  cflags : List String
  ldflags : List String
  cc_input_pattern : String
  cc_output_pattern : String
  ld_input_pattern : String
  ld_output_pattern : String
  user_libs : List String
  dummy_libs : List String
  supportdir : String
  bd_supportdir : String
  archdir : String
  bd_archdir : String
  chipdir : String
  bd_chipdir : String
  boarddir : String
  bd_boarddir : String
  benchdir : String
  bd_benchdir : String

/-- The three configuration levels iterated over by name in the script. -/
inductive DirTag
  | arch
  | chip
  | board

def DirTag.tagName : DirTag → String
  | arch => "arch"
  | chip => "chip"
  | board => "board"

def GP.srcDirOf (g : GP) : DirTag → String
  | DirTag.arch => g.archdir
  | DirTag.chip => g.chipdir
  | DirTag.board => g.boarddir

def GP.bdDirOf (g : GP) : DirTag → String
  | DirTag.arch => g.bd_archdir
  | DirTag.chip => g.bd_chipdir
  | DirTag.board => g.bd_boarddir

/-- Embedding of `compile_file`: build the argv vector, then invoke the
compiler only when no object file exists or the source is newer than the
object.  Returns (succeeded, whether the external compiler was invoked,
filesystem afterwards).  On `TimeoutExpired` the function logs (guarded by
`res = None`, so no exception) and returns failure. -/
def compile_file (g : GP) (env : BuildEnv) (fs : FS)
    (f_root srcdir bindir : String) : Bool × Bool × FS :=
  let abs_src := joinPath srcdir (f_root ++ ".c")
  let abs_bin := joinPath bindir (f_root ++ ".o")
  let arglist := [g.cc] ++ g.cflags
    ++ pySplitSpace (pyFormat1 g.cc_output_pattern (f_root ++ ".o"))
    ++ pySplitSpace (pyFormat1 g.cc_input_pattern abs_src)
  if fs.isfile abs_bin = false ∨ fs.mtime abs_src > fs.mtime abs_bin then
    let r := env.run fs arglist bindir 5
    match r.outcome with
    | RunOutcome.completed rc => (rc == 0, true, r.fsAfter)
    | RunOutcome.timedOut => (false, true, r.fsAfter)
  else (true, false, fs)

/-- Loop of `compile_benchmark` over the captured directory listing; the
middle component instruments the run with every `.c` file root attempted, in
order, paired with its result (the script itself only keeps the conjunction
of the results). -/
def compileBenchLoop (g : GP) (env : BuildEnv) (srcB bdB : String) :
    List String → FS → Bool → Bool × List (String × Bool) × FS
  | [], fs, acc => (acc, [], fs)
  | fname :: rest, fs, acc =>
    if (pySplitExt fname).2 == ".c" then
      let r := compile_file g env fs (pySplitExt fname).1 srcB bdB
      let rr := compileBenchLoop g env srcB bdB rest r.2.2 (acc && r.1)
      (rr.1, ((pySplitExt fname).1, r.1) :: rr.2.1, rr.2.2)
    else compileBenchLoop g env srcB bdB rest fs acc

/-- Embedding of `compile_benchmark`: ensure the build-mirror directory
exists (a creation failure is a non-fatal per-benchmark failure), then
compile every `.c` file of the source listing, AND-ing the results. -/
def compile_benchmark (g : GP) (env : BuildEnv) (fs : FS) (bench : String) :
    Bool × List (String × Bool) × FS :=
  let abs_src_b := joinPath g.benchdir bench
  let abs_bd_b := joinPath g.bd_benchdir bench
  if fs.isdir abs_bd_b = false then
    match env.mkdir fs abs_bd_b with
    | none => (false, [], fs)
    | some fs1 =>
      compileBenchLoop g env abs_src_b abs_bd_b (fs1.listdir abs_src_b) fs1 true
  else compileBenchLoop g env abs_src_b abs_bd_b (fs.listdir abs_src_b) fs true

/-- Dummy-library loop of `compile_support`. -/
def dummyLoop (g : GP) (env : BuildEnv) : List String → FS → Bool → Bool × FS
  | [], fs, acc => (acc, fs)
  | d :: rest, fs, acc =>
    let r := compile_file g env fs ("dummy-" ++ d) g.supportdir g.bd_supportdir
    dummyLoop g env rest r.2.2 (acc && r.1)

/-- Arch/chip/board loop of `compile_support`: compile `<tag>support.c` when
it exists, creating the build directory on demand; a directory-creation
failure returns failure for the whole support compilation at once. -/
def supportDirsLoop (g : GP) (env : BuildEnv) : List DirTag → FS → Bool → Bool × FS
  | [], fs, acc => (acc, fs)
  | t :: rest, fs, acc =>
    let filename := joinPath (g.srcDirOf t) (t.tagName ++ "support.c")
    if fs.isfile filename = true then
      let builddir := g.bdDirOf t
      if fs.isdir builddir = false then
        match env.mkdir fs builddir with
        | none => (false, fs)
        | some fs1 =>
          let r := compile_file g env fs1 (t.tagName ++ "support") (g.srcDirOf t) builddir
          supportDirsLoop g env rest r.2.2 (acc && r.1)
      else
        let r := compile_file g env fs (t.tagName ++ "support") (g.srcDirOf t) builddir
        supportDirsLoop g env rest r.2.2 (acc && r.1)
    else supportDirsLoop g env rest fs acc

/-- Body of `compile_support` after the support build directory is known to
exist: the two fixed shared files, the dummy libraries, then the
arch/chip/board support files. -/
def compileSupportRest (g : GP) (env : BuildEnv) (fs : FS) : Bool × FS :=
  let r1 := compile_file g env fs "beebsc" g.supportdir g.bd_supportdir
  let r2 := compile_file g env r1.2.2 "main" g.supportdir g.bd_supportdir
  let rd := dummyLoop g env g.dummy_libs r2.2.2 (true && r1.1 && r2.1)
  supportDirsLoop g env [DirTag.arch, DirTag.chip, DirTag.board] rd.2 rd.1

/-- Embedding of `compile_support`. -/
def compile_support (g : GP) (env : BuildEnv) (fs : FS) : Bool × FS :=
  if fs.isdir g.bd_supportdir = false then
    match env.mkdir fs g.bd_supportdir with
    | none => (false, fs)
    | some fs1 => compileSupportRest g env fs1
  else compileSupportRest g env fs

/-- The required-object part of `create_link_binlist`: each named object must
exist under the support build directory; a missing one aborts with `none`
(the Python code returns the empty list). -/
def requireObjs (g : GP) (fs : FS) : List String → List String → Option (List String)
  | [], acc => some acc
  | b :: rest, acc =>
    let binf := joinPath g.bd_supportdir b
    if fs.isfile binf = true then
      requireObjs g fs rest (acc ++ pySplitSpace (pyFormat1 g.ld_input_pattern binf))
    else none

/-- Embedding of `create_link_binlist`: the benchmark's own objects, then any
present arch/chip/board support objects, then the required `main`/`beebsc`
objects and the required dummy-library objects; a missing required object
makes the whole result the empty list. -/
def create_link_binlist (g : GP) (fs : FS) (abs_bd : String) : List String :=
  let bin0 := (fs.listdir abs_bd).foldl
    (fun acc binf =>
      if pyEndsWith binf ".o" then acc ++ pySplitSpace (pyFormat1 g.ld_input_pattern binf)
      else acc) []
  let bin1 := [DirTag.arch, DirTag.chip, DirTag.board].foldl
    (fun acc t =>
      let binf := joinPath (g.bdDirOf t) (t.tagName ++ "support.o")
      if fs.isfile binf = true then acc ++ pySplitSpace (pyFormat1 g.ld_input_pattern binf)
      else acc) bin0
  match requireObjs g fs ["main.o", "beebsc.o"] bin1 with
  | none => []
  | some bin2 =>
    match requireObjs g fs (g.dummy_libs.map (fun d => "dummy-" ++ d ++ ".o")) bin2 with
    | none => []
    | some bin3 => bin3

/-- Embedding of `create_link_arglist`. -/
def create_link_arglist (g : GP) (bench : String) (binlist : List String) : List String :=
  [g.ld] ++ g.ldflags ++ pySplitSpace (pyFormat1 g.ld_output_pattern bench)
    ++ binlist ++ g.user_libs

/-- Embedding of `link_benchmark`: (result or uncaught exception, whether the
external linker was invoked, filesystem afterwards).  An empty binlist only
clears the success flag; the linker is still invoked.  On `TimeoutExpired`
the diagnostic block reads the local `res`, which was never assigned in this
call, so the function raises `UnboundLocalError`. -/
def link_benchmark (g : GP) (env : BuildEnv) (fs : FS) (bench : String) :
    PyResult Bool × Bool × FS :=
  let abs_bd_b := joinPath g.bd_benchdir bench
  if fs.isdir abs_bd_b = false then (PyResult.ok false, false, fs)
  else
    let binlist := create_link_binlist g fs abs_bd_b
    let succeeded0 := !binlist.isEmpty
    let arglist := create_link_arglist g bench binlist
    let r := env.run fs arglist abs_bd_b 5
    match r.outcome with
    | RunOutcome.completed rc => (PyResult.ok (succeeded0 && rc == 0), true, r.fsAfter)
    | RunOutcome.timedOut => (PyResult.exn "UnboundLocalError", true, r.fsAfter)

/-- Per-benchmark loop of `main`: compile each benchmark, link it only when
its compilation succeeded, AND-ing everything into the success flag.  The
middle component instruments the run with one trace entry per benchmark, in
order: the benchmark name, the result its `compile_benchmark` call returned,
and whether `link_benchmark` was called for it — the third field is `true`
exactly on the branch that contains the `link_benchmark` call.  An uncaught
exception from `link_benchmark` propagates. -/
def mainLoopAux (g : GP) (env : BuildEnv) :
    List String → FS → Bool → PyResult (Bool × List (String × Bool × Bool) × FS)
  | [], fs, successful => PyResult.ok (successful, [], fs)
  | bench :: rest, fs, successful =>
    let c := compile_benchmark g env fs bench
    if c.1 = true then
      match link_benchmark g env c.2.2 bench with
      | (PyResult.ok res2, _, fs2) =>
        match mainLoopAux g env rest fs2 (successful && c.1 && res2) with
        | PyResult.ok out => PyResult.ok (out.1, (bench, c.1, true) :: out.2.1, out.2.2)
        | PyResult.exn e => PyResult.exn e
      | (PyResult.exn e, _, _) => PyResult.exn e
    else
      match mainLoopAux g env rest c.2.2 (successful && c.1) with
      | PyResult.ok out => PyResult.ok (out.1, (bench, c.1, false) :: out.2.1, out.2.2)
      | PyResult.exn e => PyResult.exn e

/-- Embedding of the build phase of `main` (support compilation followed by
the benchmark loop) paired with the value `main` returns: `main` has no
return statement, so it returns `None` whatever the success flag says. -/
def mainBuildPhase (g : GP) (env : BuildEnv) (fs : FS) (benchmarks : List String) :
    PyResult (Bool × Option Int) :=
  let s := compile_support g env fs
  match mainLoopAux g env benchmarks s.2 s.1 with
  | PyResult.ok out => PyResult.ok (out.1, none)
  | PyResult.exn e => PyResult.exn e

/-- Process exit status produced by `sys.exit(main())`: `None` maps to 0. -/
def sysExitCode : Option Int → Int
  | none => 0
  | some c => c

/-- Embedding of the architecture/chip/board checks of `validate_args`:
returns the error messages logged, in order, and the exit code when the
function calls `sys.exit`.  The null-architecture check exits; the null-chip
and null-board checks only log and fall through to the directory checks. -/
def validate_args (fs : FS) (configdir : String) (arch chip board : String) :
    List String × Option Int :=
  if arch = "" then (["ERROR: Null achitecture not permitted: exiting"], some 1)
  else
    let archdir := joinPath configdir arch
    if fs.isdir archdir = false then
      (["ERROR: Architecture \"" ++ arch ++ "\" not found: exiting"], some 1)
    else if fs.readOK archdir = false then
      (["ERROR: Unable to read achitecture \"" ++ arch ++ "\": exiting"], some 1)
    else
      let chipLogs := if chip = "" then ["ERROR: Null chip not permitted: exiting"] else []
      let chipdir := joinPath (joinPath archdir "chips") chip
      if fs.isdir chipdir = false then
        (chipLogs ++ ["ERROR: Chip \"" ++ chip ++ "\" not found for architecture \""
          ++ arch ++ ": exiting"], some 1)
      else if fs.readOK chipdir = false then
        (chipLogs ++ ["ERROR: Unable to read chip \"" ++ chip ++ "\" for architecture \""
          ++ arch ++ "\": exiting"], some 1)
      else
        let boardLogs := if board = "" then ["ERROR: Null board not permitted: exiting"] else []
        let boarddir := joinPath (joinPath archdir "boards") board
        if fs.isdir boarddir = false then
          (chipLogs ++ boardLogs ++ ["ERROR: Board \"" ++ board
            ++ "\" not found for architecture \"" ++ arch ++ ": exiting"], some 1)
        else if fs.readOK boarddir = false then
          (chipLogs ++ boardLogs ++ ["ERROR: Unable to read board \"" ++ board
            ++ "\" for architecture \"" ++ arch ++ "\": exiting"], some 1)
        else (chipLogs ++ boardLogs, none)

/-! ### Concrete states used by the witnesses and counterexamples -/

/-- Command line with no optional value supplied. -/
def emptyArgs : CmdArgs :=
  { cc := none, ld := none, cflags := none, ldflags := none,
    cc_define1_pattern := none, cc_define2_pattern := none,
    cc_incdir_pattern := none, cc_input_pattern := none,
    cc_output_pattern := none, ld_input_pattern := none,
    ld_output_pattern := none, user_libs := none, dummy_libs := none,
    cpu_mhz := none, warmup_heat := none }

/-- Command line supplying only additional compiler flags. -/
def argsUserCflags : CmdArgs := { emptyArgs with cflags := some "-B" }

/-- A small resolved parameter set with the default patterns. -/
def gp0 : GP :=
  { cc := "cc", ld := "cc", cflags := [], ldflags := [],
    cc_input_pattern := "\x7b0\x7d", cc_output_pattern := "-o \x7b0\x7d",
    ld_input_pattern := "\x7b0\x7d", ld_output_pattern := "-o \x7b0\x7d",
    user_libs := [], dummy_libs := [],
    supportdir := "/r/support", bd_supportdir := "/bd/support",
    archdir := "/r/config/a", bd_archdir := "/bd/config/a",
    chipdir := "/r/config/a/chips/c", bd_chipdir := "/bd/config/a/chips/c",
    boarddir := "/r/config/a/boards/b", bd_boarddir := "/bd/config/a/boards/b",
    benchdir := "/r/src", bd_benchdir := "/bd/src" }

/-- Filesystem in which every directory exists but no file does (so every
object file, in particular `main.o`, is missing). -/
def fsNoFiles : FS :=
  { isfile := fun _ => false, isdir := fun _ => true,
    listdir := fun _ => [], mtime := fun _ => 0, readOK := fun _ => true }

/-- Filesystem in which every directory and every file exist and every file
has the same timestamp, so every object is up to date. -/
def fsFresh : FS :=
  { isfile := fun _ => true, isdir := fun _ => true,
    listdir := fun _ => [], mtime := fun _ => 0, readOK := fun _ => true }

/-- Filesystem with one benchmark source directory holding two `.c` files and
one other file, and no object files. -/
def fsBench : FS :=
  { isfile := fun _ => false, isdir := fun _ => true,
    listdir := fun d => if d = "/r/src/bm" then ["a.c", "note.txt", "b.c"] else [],
    mtime := fun _ => 0, readOK := fun _ => true }

/-- Filesystem with every directory present, one benchmark source directory
holding one `.c` file, and no files (so nothing is up to date). -/
def fsOneBench : FS :=
  { isfile := fun _ => false, isdir := fun _ => true,
    listdir := fun d => if d = "/r/src/bm" then ["x.c"] else [],
    mtime := fun _ => 0, readOK := fun _ => true }

/-- Environment whose external processes always complete with the given
return code and leave the filesystem unchanged. -/
def envRC (rc : Int) : BuildEnv :=
  { run := fun fs _ _ _ => { outcome := RunOutcome.completed rc, fsAfter := fs },
    mkdir := fun fs _ => some fs }

/-- Environment whose external processes always hit the timeout. -/
def envTimeout : BuildEnv :=
  { run := fun fs _ _ _ => { outcome := RunOutcome.timedOut, fsAfter := fs },
    mkdir := fun fs _ => some fs }

/-! ### Helper lemmas -/

theorem findVal_setKey_self (st : Fragment) (k : String) (v : CVal) :
    findVal (setKey st k v) k = some v := by
  induction st with
  | nil => simp [setKey, findVal]
  | cons kv rest ih =>
    simp only [setKey]
    by_cases h : kv.1 = k
    · simp [findVal, h]
    · simp [findVal, h, ih]

theorem findVal_setKey_ne (st : Fragment) (k' k : String) (v : CVal) (h : k' ≠ k) :
    findVal (setKey st k' v) k = findVal st k := by
  induction st with
  | nil => simp [setKey, findVal, h]
  | cons kv rest ih =>
    simp only [setKey]
    by_cases h2 : kv.1 = k'
    · simp [findVal, h2, h]
    · simp [findVal, h2, ih]

theorem findVal_extendKey (st : Fragment) (k' k : String) (xs : List String) :
    findVal (extendKey st k' xs) k
      = if k' = k then (findVal st k).map (fun v => extendCVal v xs)
        else findVal st k := by
  induction st with
  | nil => simp [extendKey, findVal]
  | cons kv rest ih =>
    simp only [extendKey]
    by_cases h1 : kv.1 = k'
    · rw [if_pos h1]
      by_cases h2 : kv.1 = k
      · have hk : k' = k := by rw [← h1, h2]
        simp [findVal, h2, hk]
      · have hk : ¬ (k' = k) := by rw [← h1]; exact h2
        simp [findVal, h2, hk]
    · rw [if_neg h1]
      by_cases h2 : kv.1 = k
      · have hk : ¬ (k' = k) := fun he => h1 (h2.trans he.symm)
        simp [findVal, h2, hk]
      · simp [findVal, h2, ih]

theorem findVal_applyEntry_ne (st : Fragment) (kv : String × CVal) (k : String)
    (h : kv.1 ≠ k) : findVal (applyEntry st kv) k = findVal st k := by
  unfold applyEntry
  split
  · rw [findVal_extendKey, if_neg h]
  · exact findVal_setKey_ne st kv.1 k kv.2 h

theorem findVal_applyFragment_ne (frag : Fragment) (st : Fragment) (k : String)
    (h : ∀ kv ∈ frag, kv.1 ≠ k) :
    findVal (applyFragment st frag) k = findVal st k := by
  induction frag generalizing st with
  | nil => rfl
  | cons kv rest ih =>
    simp only [applyFragment]
    rw [ih (applyEntry st kv) (fun x hx => h x (List.mem_cons_of_mem _ hx))]
    exact findVal_applyEntry_ne st kv k (h kv (List.mem_cons_self _ _))

theorem isSome_findVal_extendKey (st : Fragment) (k' k : String) (xs : List String)
    (h : (findVal st k).isSome = true) :
    (findVal (extendKey st k' xs) k).isSome = true := by
  cases hf : findVal st k with
  | none => rw [hf] at h; simp at h
  | some v => rw [findVal_extendKey]; split <;> simp [hf]

theorem isSome_findVal_applyEntry (st : Fragment) (kv : String × CVal) (k : String)
    (h : (findVal st k).isSome = true) :
    (findVal (applyEntry st kv) k).isSome = true := by
  by_cases hk : kv.1 = k
  · unfold applyEntry
    split
    · exact isSome_findVal_extendKey st kv.1 k (cvalItems kv.2) h
    · rw [hk, findVal_setKey_self]; rfl
  · rw [findVal_applyEntry_ne st kv k hk]; exact h

theorem isSome_findVal_applyFragment (frag : Fragment) (st : Fragment) (k : String)
    (h : (findVal st k).isSome = true) :
    (findVal (applyFragment st frag) k).isSome = true := by
  induction frag generalizing st with
  | nil => exact h
  | cons kv rest ih =>
    simp only [applyFragment]
    exact ih (applyEntry st kv) (isSome_findVal_applyEntry st kv k h)

theorem requireObjs_eq_none (g : GP) (fs : FS) (names : List String) (acc : List String)
    (h : ∃ b ∈ names, fs.isfile (joinPath g.bd_supportdir b) = false) :
    requireObjs g fs names acc = none := by
  induction names generalizing acc with
  | nil => simp at h
  | cons b rest ih =>
    obtain ⟨x, hx, hxf⟩ := h
    simp only [requireObjs]
    by_cases hb : fs.isfile (joinPath g.bd_supportdir b) = true
    · rw [if_pos hb]
      apply ih
      rcases List.mem_cons.mp hx with h1 | h1
      · subst h1; rw [hb] at hxf; cases hxf
      · exact ⟨x, h1, hxf⟩
    · rw [if_neg hb]

theorem compileBenchLoop_spec (g : GP) (env : BuildEnv) (srcB bdB : String)
    (files : List String) : ∀ (fs : FS) (acc : Bool),
    (compileBenchLoop g env srcB bdB files fs acc).1
      = (acc && ((compileBenchLoop g env srcB bdB files fs acc).2.1.all (fun p => p.2)))
    ∧ (compileBenchLoop g env srcB bdB files fs acc).2.1.map (fun p => p.1)
      = (files.filter (fun f => (pySplitExt f).2 == ".c")).map (fun f => (pySplitExt f).1) := by
  induction files with
  | nil => intro fs acc; simp [compileBenchLoop]
  | cons fname rest ih =>
    intro fs acc
    by_cases hc : ((pySplitExt fname).2 == ".c") = true
    · have h1 := (ih (compile_file g env fs (pySplitExt fname).1 srcB bdB).2.2
        (acc && (compile_file g env fs (pySplitExt fname).1 srcB bdB).1)).1
      have h2 := (ih (compile_file g env fs (pySplitExt fname).1 srcB bdB).2.2
        (acc && (compile_file g env fs (pySplitExt fname).1 srcB bdB).1)).2
      simp only [compileBenchLoop, if_pos hc, List.filter_cons, hc, if_true,
        List.map_cons, List.all_cons]
      constructor
      · rw [h1, Bool.and_assoc]
      · rw [h2]
  
    · simp only [compileBenchLoop, if_neg hc, List.filter_cons, hc]
      simpa using ih fs acc

theorem mainLoopAux_trace (g : GP) (env : BuildEnv) (benchmarks : List String) :
    ∀ (fs : FS) (s0 : Bool) (out : Bool × List (String × Bool × Bool) × FS),
    mainLoopAux g env benchmarks fs s0 = PyResult.ok out →
    out.2.1.map (fun e => e.1) = benchmarks
    ∧ ∀ e ∈ out.2.1, e.2.2 = e.2.1 := by
  induction benchmarks with
  | nil =>
    intro fs s0 out h
    simp only [mainLoopAux] at h
    cases h
    simp
  | cons bench rest ih =>
    intro fs s0 out h
    simp only [mainLoopAux] at h
    by_cases hcb : (compile_benchmark g env fs bench).1 = true
    · rw [if_pos hcb] at h
      split at h
      next res2 li lfs hl =>
        split at h
        next out2 hrec =>
          injection h with h2
          subst h2
          obtain ⟨ih1, ih2⟩ := ih lfs _ out2 hrec
          constructor
          · simp [ih1]
          · intro e he
            rcases List.mem_cons.mp he with h1 | h1
            · subst h1
              show true = (compile_benchmark g env fs bench).1
              exact hcb.symm
            · exact ih2 e h1
        next e hrec => simp at h
      next e li lfs hl => simp at h
    · rw [if_neg hcb] at h
      split at h
      next out2 hrec =>
        injection h with h2
        subst h2
        obtain ⟨ih1, ih2⟩ := ih _ _ out2 hrec
        constructor
        · simp [ih1]
        · intro e he
          rcases List.mem_cons.mp he with h1 | h1
          · subst h1
            show false = (compile_benchmark g env fs bench).1
            simp only [Bool.not_eq_true] at hcb
            exact hcb.symm
          · exact ih2 e h1
      next e hrec => simp at h

theorem create_link_binlist_eq_nil (g : GP) (fs : FS) (abs_bd : String)
    (hmiss : fs.isfile (joinPath g.bd_supportdir "main.o") = false
      ∨ fs.isfile (joinPath g.bd_supportdir "beebsc.o") = false
      ∨ ∃ d ∈ g.dummy_libs,
          fs.isfile (joinPath g.bd_supportdir ("dummy-" ++ d ++ ".o")) = false) :
    create_link_binlist g fs abs_bd = [] := by
  simp only [create_link_binlist]
  rcases hmiss with h | h | h
  · rw [requireObjs_eq_none g fs _ _ ⟨"main.o", by simp, h⟩]
  · rw [requireObjs_eq_none g fs _ _ ⟨"beebsc.o", by simp, h⟩]
  · obtain ⟨d, hd, hdf⟩ := h
    have hall : ∀ acc, requireObjs g fs
        (g.dummy_libs.map (fun x => "dummy-" ++ x ++ ".o")) acc = none :=
      fun acc => requireObjs_eq_none g fs _ acc
        ⟨"dummy-" ++ d ++ ".o", List.mem_map_of_mem _ hd, hdf⟩
    simp only [hall]
    split <;> rfl

/-! ### Claim theorems -/

/-- Claim C1 is false on the code: with the benchmark build directory present
and `main.o` absent from the build-mirror support directory, `link_benchmark`
does return failure, but the second conjunct shows the external linker IS
invoked, contradicting the claim that no external link process is spawned for
that benchmark. -/
theorem C1_counterexample :
    (link_benchmark gp0 (envRC 0) fsNoFiles "bm").1 = PyResult.ok false
    ∧ (link_benchmark gp0 (envRC 0) fsNoFiles "bm").2.1 = true := ⟨rfl, rfl⟩

/-- Claim C1 (amended): whenever the benchmark build directory exists, a
required shared-support object (`main.o` or `beebsc.o`) or a configured
dummy-library object is absent from the build-mirror support directory, and
the linker invocation completes, `link_benchmark` returns failure — but the
external linker is nevertheless invoked (with an empty object list). -/
theorem C1_missing_object_fails_but_still_links (g : GP) (env : BuildEnv) (fs : FS)
    (bench : String) (rc : Int)
    (hdir : fs.isdir (joinPath g.bd_benchdir bench) = true)
    (hmiss : fs.isfile (joinPath g.bd_supportdir "main.o") = false
      ∨ fs.isfile (joinPath g.bd_supportdir "beebsc.o") = false
      ∨ ∃ d ∈ g.dummy_libs,
          fs.isfile (joinPath g.bd_supportdir ("dummy-" ++ d ++ ".o")) = false)
    (hrun : (env.run fs
        (create_link_arglist g bench
          (create_link_binlist g fs (joinPath g.bd_benchdir bench)))
        (joinPath g.bd_benchdir bench) 5).outcome = RunOutcome.completed rc) :
    (link_benchmark g env fs bench).1 = PyResult.ok false
    ∧ (link_benchmark g env fs bench).2.1 = true := by
  have hempty := create_link_binlist_eq_nil g fs (joinPath g.bd_benchdir bench) hmiss
  rw [hempty] at hrun
  constructor
  · simp [link_benchmark, hempty, hrun, hdir]
  · simp [link_benchmark, hempty, hrun, hdir]

/-- Claim C1 witness: a concrete state in which `beebsc.o` is reported
missing and the linker completes with return code 7. -/
theorem C1_witness :
    (link_benchmark gp0 (envRC 7) fsNoFiles "bm2").1 = PyResult.ok false
    ∧ (link_benchmark gp0 (envRC 7) fsNoFiles "bm2").2.1 = true :=
  C1_missing_object_fails_but_still_links gp0 (envRC 7) fsNoFiles "bm2" 7 rfl
    (Or.inr (Or.inl rfl)) rfl

/-- Claim C2 evaluated at a failing input: the architecture source sets
`cflags` to one flag and the user supplies another on the command line, yet
the user dictionary comes back empty (second conjunct), so the resolved
`cflags` list is only the architecture's — the user's list is not appended,
contradicting the additive-merge claim for the user source. -/
theorem C2_user_values_discarded :
    populate_user argsUserCflags = []
    ∧ findVal (resolveConfig [("cflags", CVal.l ["-A"])] [] [] argsUserCflags) "cflags"
        = some (CVal.l ["-A"]) := ⟨rfl, by decide⟩

/-- Claim C3 (amended): whenever the build phase completes without an
uncaught exception, `main` returns `None` and the process run result is 0,
whatever the overall success flag says — failure is visible only in the log,
never in the run result. -/
theorem C3_run_result_always_zero (g : GP) (env : BuildEnv) (fs : FS)
    (benchmarks : List String) (s : Bool) (r : Option Int)
    (h : mainBuildPhase g env fs benchmarks = PyResult.ok (s, r)) :
    r = none ∧ sysExitCode r = 0 := by
  simp only [mainBuildPhase] at h
  split at h
  next out hm =>
    injection h with h2
    injection h2 with ha hb
    exact ⟨hb.symm, by rw [← hb]; rfl⟩
  next e hm => exact PyResult.noConfusion h

/-- Claim C3 is false on the code: a run in which the only benchmark fails to
compile ends with overall success false yet run result 0, not nonzero. -/
theorem C3_counterexample :
    mainBuildPhase gp0 (envRC 1) fsOneBench ["bm"] = PyResult.ok (false, none)
    ∧ sysExitCode none = 0 := ⟨rfl, rfl⟩

/-- Claim C3 witness: the amended theorem applied to a concrete all-success
run. -/
theorem C3_witness : (none : Option Int) = none ∧ sysExitCode none = 0 :=
  C3_run_result_always_zero gp0 (envRC 0) fsFresh [] true none rfl

/-- Claim C4 evaluated at the failing input: on timeout `compile_file`
returns False without raising (first two conjuncts: failure, compiler
invoked), but `link_benchmark` raises `UnboundLocalError` instead of
returning False, because its diagnostic block reads the never-assigned
`res`. -/
theorem C4_timeout_behaviour :
    (compile_file gp0 envTimeout fsNoFiles "foo" "/r/src/bm" "/bd/src/bm").1 = false
    ∧ (compile_file gp0 envTimeout fsNoFiles "foo" "/r/src/bm" "/bd/src/bm").2.1 = true
    ∧ (link_benchmark gp0 envTimeout fsNoFiles "bm").1 = PyResult.exn "UnboundLocalError" :=
  ⟨rfl, rfl, rfl⟩

/-- Claim C5: when the benchmark build directory exists, the compile result
of `compile_benchmark` is the conjunction of the results of every attempted
file and the attempted files are exactly the `.c` files of the
source-directory listing in order (so no short-circuit on a failure); and in
any completed run of the main loop, the trace holds one entry per benchmark
in order, whose link-called field equals that benchmark's compile result —
so `link_benchmark` is called exactly for the benchmarks whose compilation
succeeded, and never for one whose compilation failed. -/
theorem C5_aggregation_and_link_gating :
    (∀ (g : GP) (env : BuildEnv) (fs : FS) (bench : String),
      fs.isdir (joinPath g.bd_benchdir bench) = true →
      (compile_benchmark g env fs bench).1
        = (compile_benchmark g env fs bench).2.1.all (fun p => p.2)
      ∧ (compile_benchmark g env fs bench).2.1.map (fun p => p.1)
        = ((fs.listdir (joinPath g.benchdir bench)).filter
            (fun f => (pySplitExt f).2 == ".c")).map (fun f => (pySplitExt f).1))
    ∧ (∀ (g : GP) (env : BuildEnv) (benchmarks : List String) (fs : FS) (s0 : Bool)
        (out : Bool × List (String × Bool × Bool) × FS),
        mainLoopAux g env benchmarks fs s0 = PyResult.ok out →
        out.2.1.map (fun e => e.1) = benchmarks
        ∧ ∀ e ∈ out.2.1, e.2.2 = e.2.1) := by
  constructor
  · intro g env fs bench hdir
    have hne : ¬ fs.isdir (joinPath g.bd_benchdir bench) = false := by rw [hdir]; simp
    have hs := compileBenchLoop_spec g env (joinPath g.benchdir bench)
      (joinPath g.bd_benchdir bench) (fs.listdir (joinPath g.benchdir bench)) fs true
    constructor
    · simp only [compile_benchmark, if_neg hne]
      rw [hs.1, Bool.true_and]
    · simp only [compile_benchmark, if_neg hne]
      exact hs.2
  · exact fun g env benchmarks => mainLoopAux_trace g env benchmarks

/-- Claim C5 witness: a benchmark directory listing `a.c`, `note.txt`, `b.c`
with a compiler that always fails; the compile result equals the conjunction
of the attempted results, exactly the two `.c` roots were attempted, and the
run's trace — whose single entry records the failed compile with no
`link_benchmark` call — covers the whole benchmark list. -/
theorem C5_witness :
    ((compile_benchmark gp0 (envRC 1) fsBench "bm").1
      = (compile_benchmark gp0 (envRC 1) fsBench "bm").2.1.all (fun p => p.2))
    ∧ ((compile_benchmark gp0 (envRC 1) fsBench "bm").2.1.map (fun p => p.1)
      = ["a", "b"])
    ∧ ([("bm", false, false)].map (fun e : String × Bool × Bool => e.1) = ["bm"]) := by
  have h := C5_aggregation_and_link_gating.1 gp0 (envRC 1) fsBench "bm" rfl
  have h2 := C5_aggregation_and_link_gating.2 gp0 (envRC 1) ["bm"] fsBench true
    (false, [("bm", false, false)], fsBench) rfl
  exact ⟨h.1, by rw [h.2]; decide, h2.1⟩

/-- Claim C6: `compile_file` reports no compiler invocation exactly when the
object file exists and its modification time is not older than the source's
(first conjunct); in that case the call is a no-op success (second conjunct);
and a second call on a state whose object file is present and up to date —
as after a successful compile of an unchanged source — is a no-op success,
so the external compile step runs at most once across the two calls (third
conjunct). -/
theorem C6_staleness_idempotence :
    (∀ (g : GP) (env : BuildEnv) (fs : FS) (f srcdir bindir : String),
      (compile_file g env fs f srcdir bindir).2.1 = false
        ↔ (fs.isfile (joinPath bindir (f ++ ".o")) = true
           ∧ fs.mtime (joinPath srcdir (f ++ ".c"))
              ≤ fs.mtime (joinPath bindir (f ++ ".o"))))
    ∧ (∀ (g : GP) (env : BuildEnv) (fs : FS) (f srcdir bindir : String),
      (compile_file g env fs f srcdir bindir).2.1 = false →
      compile_file g env fs f srcdir bindir = (true, false, fs))
    ∧ (∀ (g : GP) (env : BuildEnv) (fs : FS) (f srcdir bindir : String),
      (compile_file g env fs f srcdir bindir).1 = true →
      (compile_file g env fs f srcdir bindir).2.2.isfile (joinPath bindir (f ++ ".o")) = true →
      (compile_file g env fs f srcdir bindir).2.2.mtime (joinPath srcdir (f ++ ".c"))
        ≤ (compile_file g env fs f srcdir bindir).2.2.mtime (joinPath bindir (f ++ ".o")) →
      compile_file g env ((compile_file g env fs f srcdir bindir).2.2) f srcdir bindir
        = (true, false, (compile_file g env fs f srcdir bindir).2.2)) := by
  have hskip : ∀ (g : GP) (env : BuildEnv) (fs : FS) (f srcdir bindir : String),
      fs.isfile (joinPath bindir (f ++ ".o")) = true →
      fs.mtime (joinPath srcdir (f ++ ".c")) ≤ fs.mtime (joinPath bindir (f ++ ".o")) →
      compile_file g env fs f srcdir bindir = (true, false, fs) := by
    intro g env fs f srcdir bindir h1 h2
    have hcond : ¬ (fs.isfile (joinPath bindir (f ++ ".o")) = false
        ∨ fs.mtime (joinPath srcdir (f ++ ".c")) > fs.mtime (joinPath bindir (f ++ ".o"))) := by
      push_neg
      exact ⟨by simp [h1], h2⟩
    simp only [compile_file, if_neg hcond]
  have hinv : ∀ (g : GP) (env : BuildEnv) (fs : FS) (f srcdir bindir : String),
      (fs.isfile (joinPath bindir (f ++ ".o")) = false
        ∨ fs.mtime (joinPath srcdir (f ++ ".c")) > fs.mtime (joinPath bindir (f ++ ".o"))) →
      (compile_file g env fs f srcdir bindir).2.1 = true := by
    intro g env fs f srcdir bindir hcond
    simp only [compile_file, if_pos hcond]
    split <;> rfl
  refine ⟨?_, ?_, ?_⟩
  · intro g env fs f srcdir bindir
    constructor
    · intro h
      by_cases hcond : (fs.isfile (joinPath bindir (f ++ ".o")) = false
          ∨ fs.mtime (joinPath srcdir (f ++ ".c")) > fs.mtime (joinPath bindir (f ++ ".o")))
      · rw [hinv g env fs f srcdir bindir hcond] at h; cases h
      · push_neg at hcond
        exact ⟨by simpa using hcond.1, hcond.2⟩
    · rintro ⟨h1, h2⟩
      rw [hskip g env fs f srcdir bindir h1 h2]
  · intro g env fs f srcdir bindir h
    by_cases hcond : (fs.isfile (joinPath bindir (f ++ ".o")) = false
        ∨ fs.mtime (joinPath srcdir (f ++ ".c")) > fs.mtime (joinPath bindir (f ++ ".o")))
    · rw [hinv g env fs f srcdir bindir hcond] at h; cases h
    · push_neg at hcond
      exact hskip g env fs f srcdir bindir (by simpa using hcond.1) hcond.2
  · intro g env fs f srcdir bindir _h1 h2 h3
    exact hskip g env _ f srcdir bindir h2 h3

/-- Claim C6 witness: on a state whose object files are present and up to
date, the first call is a no-op success and so is a second call on the
resulting state. -/
theorem C6_witness :
    compile_file gp0 (envRC 0) fsFresh "foo" "/r/support" "/bd/support"
      = (true, false, fsFresh)
    ∧ compile_file gp0 (envRC 0)
        ((compile_file gp0 (envRC 0) fsFresh "foo" "/r/support" "/bd/support").2.2)
        "foo" "/r/support" "/bd/support"
      = (true, false,
        (compile_file gp0 (envRC 0) fsFresh "foo" "/r/support" "/bd/support").2.2) :=
  ⟨C6_staleness_idempotence.2.1 gp0 (envRC 0) fsFresh "foo" "/r/support" "/bd/support" rfl,
   C6_staleness_idempotence.2.2 gp0 (envRC 0) fsFresh "foo" "/r/support" "/bd/support"
     rfl rfl (by decide)⟩

/-- Claim C7: if no configuration source (default, architecture, chip,
board, or user) ever sets `ld`, the resolved `ld` equals the resolved
`cc`. -/
theorem C7_ld_defaults_to_cc (arch chip board : Fragment) (args : CmdArgs)
    (ha : ∀ kv ∈ arch, kv.1 ≠ "ld") (hc : ∀ kv ∈ chip, kv.1 ≠ "ld")
    (hb : ∀ kv ∈ board, kv.1 ≠ "ld")
    (hu : args.ld = none ∨ args.ld = some "") :
    findVal (resolveConfig arch chip board args) "ld"
      = findVal (resolveConfig arch chip board args) "cc" := by
  have huser : ∀ kv ∈ populate_user args, kv.1 ≠ "ld" := by
    have hcc : ∀ kv ∈ setIfStr ([] : Fragment) "cc" args.cc, kv.1 ≠ "ld" := by
      cases hx : args.cc with
      | none => simp [setIfStr]
      | some s =>
        simp only [setIfStr]
        split
        · simp [setKey]
        · simp
    have hpu : populate_user args = setIfStr ([] : Fragment) "cc" args.cc := by
      rcases hu with h | h <;> simp [populate_user, populate_user_commands, setIfStr, h]
    rw [hpu]
    exact hcc
  simp only [resolveConfig]
  set st5 := applyFragment (applyFragment (applyFragment (applyFragment (applyFragment
    [("cflags", CVal.l []), ("ldflags", CVal.l [])] populate_defaults) arch) chip) board)
    (populate_user args) with hst5
  have hld : findVal st5 "ld" = none := by
    rw [hst5]
    rw [findVal_applyFragment_ne _ _ _ huser, findVal_applyFragment_ne _ _ _ hb,
        findVal_applyFragment_ne _ _ _ hc, findVal_applyFragment_ne _ _ _ ha,
        findVal_applyFragment_ne _ _ _ (by decide : ∀ kv ∈ populate_defaults, kv.1 ≠ "ld")]
    rfl
  have hccS : (findVal st5 "cc").isSome = true := by
    rw [hst5]
    apply isSome_findVal_applyFragment
    apply isSome_findVal_applyFragment
    apply isSome_findVal_applyFragment
    apply isSome_findVal_applyFragment
    decide
  obtain ⟨v, hv⟩ := Option.isSome_iff_exists.mp hccS
  rw [hld, hv]
  show findVal (setKey st5 "ld" v) "ld" = findVal (setKey st5 "ld" v) "cc"
  rw [findVal_setKey_self, findVal_setKey_ne st5 "ld" "cc" v (by decide)]
  exact hv.symm

/-- Claim C7 witness: with empty arch/chip/board fragments and an empty
command line, the resolved `ld` equals the resolved `cc`. -/
theorem C7_witness :
    findVal (resolveConfig [] [] [] emptyArgs) "ld"
      = findVal (resolveConfig [] [] [] emptyArgs) "cc" :=
  C7_ld_defaults_to_cc [] [] [] emptyArgs (by simp) (by simp) (by simp) (Or.inl rfl)

/-- Claim C8: a null architecture makes `validate_args` log one error and
exit immediately with status 1 before any further check, whereas null chip
and board names only log errors and execution continues through the
directory-existence checks — here all the way to a normal return. -/
theorem C8_null_checks :
    (∀ (fs : FS) (cfg chip board : String),
      validate_args fs cfg "" chip board
        = (["ERROR: Null achitecture not permitted: exiting"], some 1))
    ∧ (∀ (fs : FS) (cfg arch : String), arch ≠ "" →
      fs.isdir (joinPath cfg arch) = true →
      fs.readOK (joinPath cfg arch) = true →
      fs.isdir (joinPath (joinPath (joinPath cfg arch) "chips") "") = true →
      fs.readOK (joinPath (joinPath (joinPath cfg arch) "chips") "") = true →
      fs.isdir (joinPath (joinPath (joinPath cfg arch) "boards") "") = true →
      fs.readOK (joinPath (joinPath (joinPath cfg arch) "boards") "") = true →
      validate_args fs cfg arch "" ""
        = (["ERROR: Null chip not permitted: exiting",
            "ERROR: Null board not permitted: exiting"], none)) := by
  constructor
  · intro fs cfg chip board
    rfl
  · intro fs cfg arch hne hd1 hr1 hd2 hr2 hd3 hr3
    simp only [validate_args, if_neg hne, hd1, hr1, hd2, hr2, hd3, hr3]
    simp

/-- Claim C8 witness: instances of both parts on a concrete filesystem. -/
theorem C8_witness :
    validate_args fsFresh "/c" "" "c" "b"
      = (["ERROR: Null achitecture not permitted: exiting"], some 1)
    ∧ validate_args fsFresh "/c" "x" "" ""
      = (["ERROR: Null chip not permitted: exiting",
          "ERROR: Null board not permitted: exiting"], none) :=
  ⟨C8_null_checks.1 fsFresh "/c" "c" "b",
   C8_null_checks.2 fsFresh "/c" "x" (by decide) rfl rfl rfl rfl rfl rfl⟩

/-- Claim C9: `decode_results` returns the parse of the entire stdout string
when it parses as a Python float and exactly 0.0 otherwise, never
propagating an error; in particular it maps "123.45" to 123.45 and both
"not-a-number" and the empty string to 0.0. -/
theorem C9_decode_sentinel :
    (∀ (s e : String) (v : PyFloat), pyFloatValue s = some v → decode_results s e = v)
    ∧ (∀ (s e : String), pyFloatValue s = none → decode_results s e = PyFloat.finite 0)
    ∧ decode_results "123.45" "" = PyFloat.finite (123.45 : ℚ)
    ∧ decode_results "not-a-number" "" = PyFloat.finite 0
    ∧ decode_results "" "" = PyFloat.finite 0 := by
  refine ⟨?_, ?_, ?_, rfl, rfl⟩
  · intro s e v h
    simp only [decode_results, h]
  · intro s e h
    simp only [decode_results, h]
  · have h : pyFloatValue "123.45"
        = some (PyFloat.finite ((12345 : ℚ) * tenPowZ (Int.negSucc 1))) := rfl
    simp only [decode_results, h, PyFloat.finite.injEq]
    norm_num [tenPowZ]

/-- Claim C9 witness: the generic parse case applied to the concrete input
"2.5" with a nonempty stderr. -/
theorem C9_witness :
    pyFloatValue "2.5" = some (PyFloat.finite ((25 : ℚ) * tenPowZ (Int.negSucc 0)))
    ∧ decode_results "2.5" "ignored stderr"
        = PyFloat.finite ((25 : ℚ) * tenPowZ (Int.negSucc 0)) :=
  ⟨rfl, C9_decode_sentinel.1 "2.5" "ignored stderr"
    (PyFloat.finite ((25 : ℚ) * tenPowZ (Int.negSucc 0))) rfl⟩

/-- Claim C10: the decoded value depends only on the captured standard
output; the stderr argument never influences the result of
`decode_results`. -/
theorem C10_stderr_irrelevant (s e1 e2 : String) :
    decode_results s e1 = decode_results s e2 := rfl
